import Mathlib

/-!
# StyleWeave — shallow embedding of `src/js/script.js`

The script wires five independent components to the DOM of a product
listing page: `ThemeManager`, `FavoriteManager`, `ProductInteractions`,
`SmoothScroll` and `LazyLoader`.  The persisted state lives in
`localStorage` under the keys `styleweave-theme` and
`styleweave-favorites`; the DOM state the script mutates is the
`data-theme` attribute of the document element, the `active` class on
favorite buttons and the `loaded` class on product images.

We embed `localStorage` as a partial map from string keys to string
values, the relevant DOM state as a record, and each handler or
initialization step as a state transformer translated line by line from
the source.
-/

set_option autoImplicit false

namespace StyleWeave

/-- `localStorage`: a partial map from string keys to string values. -/
def Store : Type := String → Option String

/-- `localStorage.getItem(k)`. -/
def Store.getItem (s : Store) (k : String) : Option String := s k

/-- `localStorage.setItem(k, v)`. -/
def Store.setItem (s : Store) (k v : String) : Store :=
  fun k2 => if k2 = k then some v else s k2

/-- A `localStorage` with nothing stored (fresh browser profile). -/
def Store.empty : Store := fun _ => none

/-- Storage key used by `ThemeManager` (`'styleweave-theme'`). -/
def themeKey : String := "styleweave-theme"

/-- Storage key used by `FavoriteManager` (`'styleweave-favorites'`). -/
def favoritesKey : String := "styleweave-favorites"

/-- The DOM state the script reads and mutates. -/
@[ext] structure Dom where
  /-- `document.documentElement`'s `data-theme` attribute. -/
  dataTheme : Option String
  /-- `classList.contains('active')` of each `.favorite-btn`, by position. -/
  favActive : List Bool
  /-- `classList.contains('loaded')` of each `.product-image`, by position. -/
  imgLoaded : List Bool
  deriving DecidableEq

/-- The whole mutable state: storage, DOM, and the two in-memory fields
(`ThemeManager.currentTheme`, `FavoriteManager.favorites`). -/
@[ext] structure PageState where
  store : Store
  dom : Dom
  /-- `ThemeManager.currentTheme`. -/
  currentTheme : String
  /-- `FavoriteManager.favorites` (JS array of numeric indices). -/
  favorites : List Nat

/-! ## ThemeManager -/

/-- `getStoredTheme()`: `localStorage.getItem('styleweave-theme')`. -/
def getStoredTheme (st : PageState) : Option String :=
  st.store.getItem themeKey

/-- `setStoredTheme(theme)`: `localStorage.setItem('styleweave-theme', theme)`. -/
def setStoredTheme (st : PageState) (theme : String) : PageState :=
  { st with store := st.store.setItem themeKey theme }

/-- `applyTheme(theme)`: set the `data-theme` attribute, update
`currentTheme`, and persist the theme. -/
def applyTheme (st : PageState) (theme : String) : PageState :=
  setStoredTheme
    { st with dom := { st.dom with dataTheme := some theme },
              currentTheme := theme }
    theme

/-- JS `v || d` where `v` is `localStorage.getItem`'s result: `null` and
the empty string are falsy, every other string is truthy. -/
def jsOrDefault (v : Option String) (d : String) : String :=
  match v with
  | none => d
  | some s => if s = "" then d else s

/-- `new ThemeManager()`: `currentTheme = getStoredTheme() || 'light'`,
then `init()` applies it (which also re-stores it).  The click listener
on the toggle button is pure wiring and has no state effect here. -/
def themeManagerNew (st : PageState) : PageState :=
  applyTheme st (jsOrDefault (getStoredTheme st) "light")

/-- The ternary in `toggleTheme`:
`currentTheme === 'light' ? 'dark' : 'light'`. -/
def toggleThemeName (cur : String) : String :=
  if cur = "light" then "dark" else "light"

/-- `toggleTheme()`: apply the flipped theme.  The 300 ms rotation of the
toggle button's `style.transform` is set and then reset, leaving no state
change. -/
def toggleTheme (st : PageState) : PageState :=
  applyTheme st (toggleThemeName st.currentTheme)

/-! ## FavoriteManager -/

/-- `JSON.stringify` of a JS array of (non-negative integer) numbers. -/
def jsonStringifyNatList (l : List Nat) : String :=
  "[" ++ String.intercalate "," (l.map toString) ++ "]"

/-- `JSON.parse` restricted to the strings `jsonStringifyNatList`
produces: the inverse decoder for stored favorites arrays. -/
def jsonParseNatList (s : String) : List Nat :=
  let inner := (s.drop 1).dropRight 1
  if inner = "" then []
  else (inner.splitOn ",").map (fun t => t.toNat?.getD 0)

/-- `getStoredFavorites()`: parse the stored JSON array, or `[]` when
nothing is stored. -/
def getStoredFavorites (st : PageState) : List Nat :=
  match st.store.getItem favoritesKey with
  | none => []
  | some s => jsonParseNatList s

/-- `setStoredFavorites()`: store `JSON.stringify(this.favorites)`. -/
def setStoredFavorites (st : PageState) : PageState :=
  { st with store :=
      st.store.setItem favoritesKey (jsonStringifyNatList st.favorites) }

/-- `toggleFavorite(button, productIndex)`: if the button carries the
`active` class, remove it and filter the index out of `favorites`;
otherwise add the class and push the index.  Either way the favorites
array is rewritten to storage at the end. -/
def toggleFavorite (st : PageState) (i : Nat) : PageState :=
  let isActive := st.dom.favActive.getD i false
  let st2 :=
    if isActive then
      { st with dom := { st.dom with favActive := st.dom.favActive.set i false },
                favorites := st.favorites.filter (fun id => id ≠ i) }
    else
      { st with dom := { st.dom with favActive := st.dom.favActive.set i true },
                favorites := st.favorites ++ [i] }
  setStoredFavorites st2

/-- `new FavoriteManager()`: load `favorites` from storage, then `init()`
adds the `active` class to every button whose index is stored. -/
def favoriteManagerNew (st : PageState) : PageState :=
  let favs := getStoredFavorites st
  let newActive := (List.range st.dom.favActive.length).map
    (fun i => st.dom.favActive.getD i false || favs.contains i)
  { st with favorites := favs, dom := { st.dom with favActive := newActive } }

/-- A sequence of clicks on favorite buttons, each identified by its
position among the `.favorite-btn` elements. -/
def runToggles (st : PageState) (clicks : List Nat) : PageState :=
  clicks.foldl toggleFavorite st

/-- The page as first loaded with `n` favorite buttons and `m` product
images, a fresh storage, no `data-theme` attribute, no `active` and no
`loaded` classes. -/
def initialPage (n m : Nat) : PageState :=
  { store := Store.empty,
    dom := { dataTheme := none,
             favActive := List.replicate n false,
             imgLoaded := List.replicate m false },
    currentTheme := "light",
    favorites := [] }

/-! ## ProductInteractions -/

/-- The children of a `.product-card` that `ProductInteractions` queries:
`card.querySelector('.product-name')` (we keep its `textContent`) and
`card.querySelector('.product-image')`. `none` means the query matched
nothing. -/
structure Card where
  productName : Option String
  productImage : Option Unit

/-- A card whose `.product-name` query matches. -/
def sampleCard : Card := { productName := some "Silk Scarf", productImage := some () }

/-- A card with no `.product-name` child. -/
def namelessCard : Card := { productName := none, productImage := some () }

/-- `onCardHover(card, isHovering)`: queries `.product-image` and guards
it with `if (image)`; the guarded branch is empty, so the handler never
throws and has no effect. -/
def onCardHover (c : Card) (_isHovering : Bool) : Except String Unit :=
  match c.productImage with
  | some _ => Except.ok ()
  | none => Except.ok ()

/-- `onCardClick(card)`: reads
`card.querySelector('.product-name').textContent` with no null check —
when the card has no `.product-name` child the dereference throws a
`TypeError`; otherwise the name is logged and a ripple is added. -/
def onCardClick (c : Card) : Except String String :=
  match c.productName with
  | none => Except.error "TypeError: cannot read textContent of null"
  | some nm => Except.ok nm

/-! ## ThemeManager.init's guard -/

/-- `ThemeManager.init`'s listener wiring:
`if (this.themeToggle) addEventListener(...)`.  Returns whether the
listener was attached; the absent-toggle case is guarded, so it never
throws. -/
def themeInitWiring (themeToggle : Option Unit) : Except String Bool :=
  match themeToggle with
  | some _ => Except.ok true
  | none => Except.ok false

/-! ## SmoothScroll -/

/-- The CSS attribute selector `a[href^="#"]` used by `SmoothScroll.init`:
an anchor gets the click listener exactly when its `href` attribute
starts with the character `#`. -/
def anchorSelected (href : String) : Bool :=
  match href.data with
  | [] => false
  | c :: _ => c = '#'

/-- What one click on a selected anchor does. -/
structure ScrollEffect where
  /-- `e.preventDefault()` was called. -/
  defaultPrevented : Bool
  /-- `target.scrollIntoView({behavior, block})`, when a target matched:
  the selector that matched and the two option strings. -/
  scrolled : Option (String × String × String)
  deriving DecidableEq

/-- The `SmoothScroll` click handler: `e.preventDefault()`
unconditionally, then `document.querySelector(href)`; if a target exists,
`scrollIntoView({behavior: 'smooth', block: 'start'})`, else nothing
more.  `doc` is `document.querySelector` on this page, as a partial map
from selectors to matches. -/
def smoothScrollClick (doc : String → Option Unit) (href : String) :
    ScrollEffect :=
  { defaultPrevented := true,
    scrolled := match doc href with
                | some _ => some (href, "smooth", "start")
                | none => none }

/-! ## LazyLoader -/

/-- The `LazyLoader`'s state: which `.product-image` elements the
`IntersectionObserver` still observes, and which carry the `loaded`
class (by position among `this.images`). -/
@[ext] structure LazyState where
  observed : List Nat
  loaded : List Bool
  deriving DecidableEq

/-- `new LazyLoader()` + `init()` for `n` product images: when
`IntersectionObserver` exists every image is observed, otherwise nothing
happens (and no image is ever marked loaded). -/
def lazyInit (hasIntersectionObserver : Bool) (n : Nat) : LazyState :=
  if hasIntersectionObserver then
    { observed := List.range n, loaded := List.replicate n false }
  else
    { observed := [], loaded := List.replicate n false }

/-- One observer entry: the index of its target image and
`entry.isIntersecting`. -/
def ObserverEntry : Type := Nat × Bool

/-- The body of the observer callback for one entry: when intersecting,
add the `loaded` class and `observer.unobserve(img)`; otherwise do
nothing. -/
def processEntry (s : LazyState) (e : ObserverEntry) : LazyState :=
  if e.2 then
    { observed := s.observed.filter (fun j => j ≠ e.1),
      loaded := s.loaded.set e.1 true }
  else s

/-- One callback invocation: `entries.forEach(...)`. -/
def processEvent (s : LazyState) (entries : List ObserverEntry) : LazyState :=
  entries.foldl processEntry s

/-- A sequence of observer callback invocations. -/
def runEvents (s : LazyState) (evs : List (List ObserverEntry)) : LazyState :=
  evs.foldl processEvent s

/-- A callback invocation is valid when the browser delivers entries only
for targets the observer still observes (the `IntersectionObserver`
contract). -/
def validEvent (s : LazyState) (entries : List ObserverEntry) : Prop :=
  ∀ e ∈ entries, e.1 ∈ s.observed

/-! ## The combined operation alphabet (for frame/shape invariants) -/

/-- Every state-mutating operation the script can perform on storage, the
document theme attribute and the button classes. -/
inductive Op where
  /-- `new ThemeManager()` at page load. -/
  | themeInit
  /-- A click on the theme toggle (`toggleTheme`). -/
  | themeClick
  /-- `new FavoriteManager()` at page load. -/
  | favInit
  /-- A click on the favorite button at position `i` (`toggleFavorite`). -/
  | favClick (i : Nat)

/-- Run one operation on the page state. -/
def applyOp (st : PageState) (op : Op) : PageState :=
  match op with
  | Op.themeInit => themeManagerNew st
  | Op.themeClick => toggleTheme st
  | Op.favInit => favoriteManagerNew st
  | Op.favClick i => toggleFavorite st i

/-- Run a sequence of operations. -/
def runOps (st : PageState) (ops : List Op) : PageState :=
  ops.foldl applyOp st

/-! ## Invariants -/

/-- The `FavoriteManager` invariant for a page with `n` favorite buttons:
the favorites array holds each index at most once, the button list keeps
its length, and an index is stored exactly when its button carries the
`active` class. -/
def favInv (n : Nat) (st : PageState) : Prop :=
  st.favorites.Nodup ∧
  st.dom.favActive.length = n ∧
  (∀ i, i ∈ st.favorites ↔ st.dom.favActive.getD i false = true)

/-- The page state reached by constructing a `FavoriteManager` on a fresh
page and then clicking favorite buttons in the given order. -/
def favState (n m : Nat) (clicks : List Nat) : PageState :=
  runToggles (favoriteManagerNew (initialPage n m)) clicks

/-- A trace of observer callback invocations in which the browser only
ever reports targets that are observed at the time of the callback. -/
def ValidTrace : LazyState → List (List ObserverEntry) → Prop
  | _, [] => True
  | s, ev :: evs => validEvent s ev ∧ ValidTrace (processEvent s ev) evs

/-- The `LazyLoader` invariant: an image that carries the `loaded` class
is no longer observed. -/
def LazyInv (s : LazyState) : Prop :=
  ∀ i, s.loaded.getD i false = true → i ∉ s.observed

/-- The shape of the persisted state: no key other than
`styleweave-theme` and `styleweave-favorites` is ever populated, and the
favorites value, when present, is the JSON encoding of an array of
integer indices. -/
def StoreShape (s : Store) : Prop :=
  (∀ k, k ≠ themeKey → k ≠ favoritesKey → s.getItem k = none) ∧
  (s.getItem favoritesKey = none ∨
    ∃ l : List Nat, s.getItem favoritesKey = some (jsonStringifyNatList l))

/-! ## Theorems -/

/-- Reading the slot just written (`classList` indexed model). -/
theorem getD_set_self_of_lt {l : List Bool} {i : Nat} (b : Bool)
    (h : i < l.length) : (l.set i b).getD i false = b := by
  simp [List.getD_eq_getElem?_getD, List.getElem?_set_self h]

/-- Reading a slot other than the one written. -/
theorem getD_set_ne_of_ne {l : List Bool} {i j : Nat} (b : Bool)
    (h : i ≠ j) : (l.set i b).getD j false = l.getD j false := by
  simp [List.getD_eq_getElem?_getD, List.getElem?_set_ne h]

/-- Writing back the value a slot already holds changes nothing. -/
theorem set_getD_eq {l : List Bool} {i : Nat} (h : i < l.length) :
    l.set i (l.getD i false) = l := by
  apply List.ext_getElem?
  intro n
  by_cases hn : n = i
  · subst hn
    rw [List.getElem?_set_self h]
    simp [List.getD_eq_getElem?_getD, List.getElem?_eq_getElem h]
  · rw [List.getElem?_set_ne (fun hh => hn hh.symm)]

/-- Unfolding `toggleFavorite` on a button that carries `active`. -/
theorem toggleFavorite_active {st : PageState} {i : Nat}
    (hA : st.dom.favActive.getD i false = true) :
    toggleFavorite st i = setStoredFavorites
      { st with
        dom := { st.dom with favActive := st.dom.favActive.set i false },
        favorites := st.favorites.filter (fun id => id ≠ i) } := by
  simp only [toggleFavorite]
  rw [hA]
  simp

/-- Unfolding `toggleFavorite` on a button without `active`. -/
theorem toggleFavorite_inactive {st : PageState} {i : Nat}
    (hA : st.dom.favActive.getD i false = false) :
    toggleFavorite st i = setStoredFavorites
      { st with
        dom := { st.dom with favActive := st.dom.favActive.set i true },
        favorites := st.favorites ++ [i] } := by
  simp only [toggleFavorite]
  rw [hA]
  simp

/-- `setStoredFavorites` only touches the store. -/
theorem setStoredFavorites_dom (st : PageState) :
    (setStoredFavorites st).dom = st.dom := rfl

/-- `setStoredFavorites` leaves the favorites array itself alone. -/
theorem setStoredFavorites_favorites (st : PageState) :
    (setStoredFavorites st).favorites = st.favorites := rfl

/-- Filtering an appended index back out, when it was not there before. -/
theorem filter_append_singleton_self {l : List Nat} {i : Nat}
    (h : i ∉ l) : (l ++ [i]).filter (fun id => id ≠ i) = l := by
  rw [List.filter_append]
  have h2 : List.filter (fun id => decide ¬(id = i)) [i] = [] := by simp
  rw [h2, List.append_nil]
  exact List.filter_eq_self.mpr (fun a ha => by
    simp only [decide_not, Bool.not_eq_true', decide_eq_false_iff_not]
    intro hai
    exact h (hai ▸ ha))

/-- Claim C1, as stated, fails on the empty theme string: `applyTheme('')`
stores `''`, but a `ThemeManager` constructed afterwards evaluates
`getStoredTheme() || 'light'`, in which the stored `''` is falsy, so it
applies `'light'` rather than the stored theme. -/
theorem C1_counterexample :
    getStoredTheme (applyTheme (initialPage 0 0) "") = some "" ∧
    (themeManagerNew (applyTheme (initialPage 0 0) "")).dom.dataTheme =
      some "light" ∧
    (themeManagerNew (applyTheme (initialPage 0 0) "")).currentTheme =
      "light" ∧
    ("light" : String) ≠ "" := by
  refine ⟨rfl, rfl, rfl, ?_⟩
  decide

/-- C1 (amended): for every nonempty theme string `t`, `applyTheme t`
stores `t` under `styleweave-theme`, and a `ThemeManager` constructed
afterwards reads that stored value and applies exactly `t` to the
document, so store-then-restore is the identity on nonempty themes. -/
theorem C1_round_trip (st : PageState) (t : String) (h : t ≠ "") :
    getStoredTheme (applyTheme st t) = some t ∧
    (themeManagerNew (applyTheme st t)).dom.dataTheme = some t ∧
    (themeManagerNew (applyTheme st t)).currentTheme = t ∧
    getStoredTheme (themeManagerNew (applyTheme st t)) = some t := by
  have hstored : getStoredTheme (applyTheme st t) = some t := by
    simp [getStoredTheme, applyTheme, setStoredTheme, Store.getItem,
      Store.setItem]
  have hread : jsOrDefault (getStoredTheme (applyTheme st t)) "light" = t := by
    rw [hstored]
    simp [jsOrDefault, h]
  refine ⟨hstored, ?_, ?_, ?_⟩ <;>
    simp [themeManagerNew, hread, applyTheme, setStoredTheme, getStoredTheme,
      Store.getItem, Store.setItem, jsOrDefault, h]

/-- Witness for C1_round_trip at the concrete theme `'dark'`. -/
theorem C1_round_trip_witness :
    getStoredTheme (applyTheme (initialPage 0 0) "dark") = some "dark" ∧
    (themeManagerNew (applyTheme (initialPage 0 0) "dark")).dom.dataTheme =
      some "dark" ∧
    (themeManagerNew (applyTheme (initialPage 0 0) "dark")).currentTheme =
      "dark" ∧
    getStoredTheme (themeManagerNew (applyTheme (initialPage 0 0) "dark")) =
      some "dark" :=
  C1_round_trip (initialPage 0 0) "dark" (by decide)

/-- Claim C3: `toggleTheme` flips `'light'` to `'dark'` and every other
current theme to `'light'`; on `{'light','dark'}` it is an involution, so
toggling twice restores the original theme. -/
theorem C3_toggle_binary (st : PageState) :
    (toggleTheme st).currentTheme = toggleThemeName st.currentTheme ∧
    toggleThemeName "light" = "dark" ∧
    (∀ t, t ≠ "light" → toggleThemeName t = "light") ∧
    (st.currentTheme = "light" ∨ st.currentTheme = "dark" →
      (toggleTheme (toggleTheme st)).currentTheme = st.currentTheme) := by
  refine ⟨?_, rfl, ?_, ?_⟩
  · simp [toggleTheme, applyTheme, setStoredTheme]
  · intro t ht
    simp [toggleThemeName, ht]
  · rintro (h | h) <;>
      simp [toggleTheme, applyTheme, setStoredTheme, toggleThemeName, h]

/-- Witness for C3_toggle_binary: two toggles from the initial `'light'`
theme restore `'light'`. -/
theorem C3_toggle_binary_witness :
    (toggleTheme (toggleTheme (initialPage 0 0))).currentTheme =
      (initialPage 0 0).currentTheme :=
  (C3_toggle_binary (initialPage 0 0)).2.2.2 (Or.inl rfl)

/-- Claim C10: constructing a `ThemeManager` over an empty storage
selects the default `'light'`, applies it to the document and stores it,
so merely loading the page persists a theme value. -/
theorem C10_init_writes_default (st : PageState)
    (h : ∀ k, st.store.getItem k = none) :
    (themeManagerNew st).currentTheme = "light" ∧
    (themeManagerNew st).dom.dataTheme = some "light" ∧
    getStoredTheme (themeManagerNew st) = some "light" := by
  have hnone : st.store themeKey = none := h themeKey
  refine ⟨?_, ?_, ?_⟩ <;>
    simp [themeManagerNew, hnone, jsOrDefault, applyTheme, setStoredTheme,
      getStoredTheme, Store.getItem, Store.setItem]

/-- Witness for C10_init_writes_default on the freshly loaded page. -/
theorem C10_init_writes_default_witness :
    (themeManagerNew (initialPage 2 2)).currentTheme = "light" ∧
    (themeManagerNew (initialPage 2 2)).dom.dataTheme = some "light" ∧
    getStoredTheme (themeManagerNew (initialPage 2 2)) = some "light" :=
  C10_init_writes_default (initialPage 2 2) (fun _ => rfl)

/-- Claim C5, as stated, fails: `onCardClick` reads
`card.querySelector('.product-name').textContent` without a null check,
so a click on a card that has no `.product-name` child throws a
`TypeError`. -/
theorem C5_counterexample :
    onCardClick namelessCard =
      Except.error "TypeError: cannot read textContent of null" := rfl

/-- C5 (amended): every queried element is checked before being
dereferenced except the product name in `onCardClick`: the theme toggle,
the scroll target and the hovered product image are guarded, so those
handlers never throw when the element is absent, but a click on a card
without a `.product-name` child throws. -/
theorem C5_guards (toggle : Option Unit) (c : Card) (hov : Bool)
    (doc : String → Option Unit) (href : String) :
    themeInitWiring toggle = Except.ok toggle.isSome ∧
    onCardHover c hov = Except.ok () ∧
    ((smoothScrollClick doc href).scrolled.isSome → (doc href).isSome) ∧
    (onCardClick c = Except.error "TypeError: cannot read textContent of null"
      ↔ c.productName = none) := by
  obtain ⟨pn, pi⟩ := c
  refine ⟨?_, ?_, ?_, ?_⟩
  · cases toggle <;> rfl
  · cases pi <;> rfl
  · intro hs
    simp only [smoothScrollClick] at hs
    cases hdoc : doc href <;> simp [hdoc] at hs ⊢
  · cases pn <;> simp [onCardClick]

/-- Witness for C5_guards: on a page with a theme toggle and a card
whose product name is present, nothing throws. -/
theorem C5_guards_witness :
    themeInitWiring (some ()) = Except.ok (some ()).isSome ∧
    onCardHover sampleCard true = Except.ok () ∧
    ((smoothScrollClick (fun _ => none) "#top").scrolled.isSome →
      ((fun (_ : String) => none (α := Unit)) "#top").isSome) ∧
    (onCardClick sampleCard =
        Except.error "TypeError: cannot read textContent of null"
      ↔ sampleCard.productName = none) :=
  C5_guards (some ()) sampleCard true (fun _ => none) "#top"

/-- Claim C6: every anchor whose `href` begins with `#` is selected by
`a[href^="#"]`, its click handler prevents the default navigation
unconditionally, scrolls a matching target into view with smooth
behavior aligned to its start, and does nothing more when no element
matches. -/
theorem C6_smooth_scroll (doc : String → Option Unit) (href : String)
    (_h : anchorSelected href = true) :
    (smoothScrollClick doc href).defaultPrevented = true ∧
    (∀ u, doc href = some u →
      (smoothScrollClick doc href).scrolled = some (href, "smooth", "start")) ∧
    (doc href = none → (smoothScrollClick doc href).scrolled = none) := by
  refine ⟨rfl, ?_, ?_⟩
  · intro u hu
    simp [smoothScrollClick, hu]
  · intro hu
    simp [smoothScrollClick, hu]

/-- Witness for C6_smooth_scroll: a click on an anchor to `#products` on
a page where that target exists scrolls it into view smoothly. -/
theorem C6_smooth_scroll_witness :
    (smoothScrollClick
      (fun s => if s = "#products" then some () else none) "#products").scrolled
      = some ("#products", "smooth", "start") :=
  (C6_smooth_scroll (fun s => if s = "#products" then some () else none)
      "#products" (by decide)).2.1 () (by simp)

/-- Claim C4, as stated, fails: the effect of a click on a favorite
button is a toggle, so performing it twice does not equal performing it
once — on a one-button page, one click activates button 0 and stores
`[0]`, a second click deactivates it and stores `[]`. -/
theorem C4_counterexample :
    (toggleFavorite (toggleFavorite (initialPage 1 0) 0) 0).dom.favActive ≠
      (toggleFavorite (initialPage 1 0) 0).dom.favActive ∧
    (toggleFavorite (toggleFavorite (initialPage 1 0) 0) 0).favorites ≠
      (toggleFavorite (initialPage 1 0) 0).favorites := by
  refine ⟨?_, ?_⟩ <;> decide

/-- C4 (amended): applying a theme and marking an image loaded are
idempotent, but a click on a favorite button is an involution rather
than idempotent: on a button whose `active` class agrees with membership
in the favorites array, two clicks restore the DOM and the set of stored
favorites (rather than one click being absorbing). -/
theorem C4_idempotence (st : PageState) (t : String) (s : LazyState)
    (e : ObserverEntry) (i : Nat)
    (hi : i < st.dom.favActive.length)
    (hmem : st.dom.favActive.getD i false = true ↔ i ∈ st.favorites) :
    applyTheme (applyTheme st t) t = applyTheme st t ∧
    processEntry (processEntry s e) e = processEntry s e ∧
    (toggleFavorite (toggleFavorite st i) i).dom = st.dom ∧
    (∀ j, j ∈ (toggleFavorite (toggleFavorite st i) i).favorites ↔
      j ∈ st.favorites) := by
  refine ⟨?_, ?_, ?_⟩
  · have hstore : (applyTheme (applyTheme st t) t).store =
        (applyTheme st t).store := by
      funext k
      simp only [applyTheme, setStoredTheme, Store.setItem]
      by_cases hk : k = themeKey <;> simp [hk]
    exact PageState.ext hstore rfl rfl rfl
  · obtain ⟨j, b⟩ := e
    cases b
    · rfl
    · refine LazyState.ext ?_ ?_
      · simp [processEntry, List.filter_filter]
      · simp [processEntry, List.set_set]
  · cases hA : st.dom.favActive.getD i false
    · -- button inactive: click adds, second click removes
      have hnot : i ∉ st.favorites := by
        intro hm
        rw [hmem.2 hm] at hA
        exact Bool.noConfusion hA
      have e1 := toggleFavorite_inactive hA
      have p1 : (toggleFavorite st i).dom.favActive =
          st.dom.favActive.set i true := by rw [e1]; rfl
      have p2 : (toggleFavorite st i).favorites = st.favorites ++ [i] := by
        rw [e1]; rfl
      have p3 : (toggleFavorite st i).dom.dataTheme = st.dom.dataTheme := by
        rw [e1]; rfl
      have p4 : (toggleFavorite st i).dom.imgLoaded = st.dom.imgLoaded := by
        rw [e1]; rfl
      have hA1 : (toggleFavorite st i).dom.favActive.getD i false = true := by
        rw [p1]
        exact getD_set_self_of_lt true hi
      have e2 := toggleFavorite_active hA1
      constructor
      · rw [e2, setStoredFavorites_dom]
        refine Dom.ext p3 ?_ p4
        rw [p1, List.set_set]
        have hback := set_getD_eq hi
        rwa [hA] at hback
      · intro j
        rw [e2, setStoredFavorites_favorites]
        show j ∈ (toggleFavorite st i).favorites.filter (fun id => id ≠ i) ↔
          j ∈ st.favorites
        rw [p2, filter_append_singleton_self hnot]
    · -- button active: click removes, second click adds back
      have hmemT : i ∈ st.favorites := hmem.1 hA
      have e1 := toggleFavorite_active hA
      have p1 : (toggleFavorite st i).dom.favActive =
          st.dom.favActive.set i false := by rw [e1]; rfl
      have p2 : (toggleFavorite st i).favorites =
          st.favorites.filter (fun id => id ≠ i) := by rw [e1]; rfl
      have p3 : (toggleFavorite st i).dom.dataTheme = st.dom.dataTheme := by
        rw [e1]; rfl
      have p4 : (toggleFavorite st i).dom.imgLoaded = st.dom.imgLoaded := by
        rw [e1]; rfl
      have hA1 : (toggleFavorite st i).dom.favActive.getD i false = false := by
        rw [p1]
        exact getD_set_self_of_lt false hi
      have e2 := toggleFavorite_inactive hA1
      constructor
      · rw [e2, setStoredFavorites_dom]
        refine Dom.ext p3 ?_ p4
        rw [p1, List.set_set]
        have hback := set_getD_eq hi
        rwa [hA] at hback
      · intro j
        rw [e2, setStoredFavorites_favorites]
        show j ∈ (toggleFavorite st i).favorites ++ [i] ↔ j ∈ st.favorites
        rw [p2]
        by_cases hj : j = i
        · subst hj
          simp [hmemT]
        · simp [List.mem_filter, hj]

/-- Witness for C4_idempotence on a fresh one-button page (never
favorited, class and storage agree). -/
theorem C4_idempotence_witness :
    applyTheme (applyTheme (initialPage 1 1) "dark") "dark" =
      applyTheme (initialPage 1 1) "dark" ∧
    processEntry (processEntry (lazyInit true 1) (0, true)) (0, true) =
      processEntry (lazyInit true 1) (0, true) ∧
    (toggleFavorite (toggleFavorite (initialPage 1 1) 0) 0).dom =
      (initialPage 1 1).dom ∧
    (∀ j, j ∈ (toggleFavorite (toggleFavorite (initialPage 1 1) 0) 0).favorites
      ↔ j ∈ (initialPage 1 1).favorites) :=
  C4_idempotence (initialPage 1 1) "dark" (lazyInit true 1) (0, true) 0
    (by decide) (by decide)

/-- Reading any slot of an all-`false` class list gives `false`. -/
theorem getD_replicate_false (n i : Nat) :
    (List.replicate n false).getD i false = false := by
  rw [List.getD_eq_getElem?_getD, List.getElem?_replicate]
  split <;> rfl

/-- Constructing a `FavoriteManager` over the fresh page restores the
empty favorites set and leaves every button inactive. -/
theorem favoriteManagerNew_initial (n m : Nat) :
    (favoriteManagerNew (initialPage n m)).favorites = [] ∧
    (favoriteManagerNew (initialPage n m)).dom.favActive =
      List.replicate n false := by
  refine ⟨rfl, ?_⟩
  show (List.range (List.replicate n false : List Bool).length).map
      (fun i => (List.replicate n false : List Bool).getD i false ||
        ([] : List Nat).contains i) = List.replicate n false
  rw [List.length_replicate]
  have hcongr : (List.range n).map
      (fun i => (List.replicate n false : List Bool).getD i false ||
        ([] : List Nat).contains i) = (List.range n).map (fun _ => false) :=
    List.map_congr_left (fun a _ => by rw [getD_replicate_false]; rfl)
  rw [hcongr, List.map_const', List.length_range]

/-- One toggle at a live button index preserves the favorites
invariant. -/
theorem favInv_toggle {n : Nat} {st : PageState} {i : Nat}
    (hinv : favInv n st) (hi : i < n) : favInv n (toggleFavorite st i) := by
  obtain ⟨hnd, hlen, hiff⟩ := hinv
  have hi' : i < st.dom.favActive.length := by rw [hlen]; exact hi
  cases hA : st.dom.favActive.getD i false
  · -- inactive button: the index is pushed and the class added
    have hnot : i ∉ st.favorites := by
      intro hm
      have := (hiff i).mp hm
      rw [hA] at this
      exact Bool.noConfusion this
    rw [toggleFavorite_inactive hA]
    refine ⟨?_, ?_, ?_⟩
    · show (st.favorites ++ [i]).Nodup
      rw [List.nodup_append]
      refine ⟨hnd, List.nodup_singleton i, ?_⟩
      intro a ha hb
      rw [List.mem_singleton.mp hb] at ha
      exact hnot ha
    · show (st.dom.favActive.set i true).length = n
      rw [List.length_set]
      exact hlen
    · intro j
      show j ∈ st.favorites ++ [i] ↔
        (st.dom.favActive.set i true).getD j false = true
      by_cases hj : j = i
      · subst hj
        rw [getD_set_self_of_lt true hi']
        simp
      · rw [getD_set_ne_of_ne true (fun hh => hj hh.symm)]
        simp only [List.mem_append, List.mem_singleton, hj, or_false]
        exact hiff j
  · -- active button: the index is filtered out and the class removed
    rw [toggleFavorite_active hA]
    refine ⟨?_, ?_, ?_⟩
    · show (st.favorites.filter (fun id => id ≠ i)).Nodup
      exact List.Nodup.filter _ hnd
    · show (st.dom.favActive.set i false).length = n
      rw [List.length_set]
      exact hlen
    · intro j
      show j ∈ st.favorites.filter (fun id => id ≠ i) ↔
        (st.dom.favActive.set i false).getD j false = true
      by_cases hj : j = i
      · subst hj
        rw [getD_set_self_of_lt false hi']
        simp [List.mem_filter]
      · rw [getD_set_ne_of_ne false (fun hh => hj hh.symm), ← hiff j]
        simp [List.mem_filter, hj]

/-- The favorites invariant survives any sequence of clicks on live
buttons. -/
theorem favInv_runToggles {n : Nat} {st : PageState} (clicks : List Nat)
    (hinv : favInv n st) (hc : ∀ i ∈ clicks, i < n) :
    favInv n (runToggles st clicks) := by
  induction clicks generalizing st with
  | nil => exact hinv
  | cons c cs ih =>
      exact ih (favInv_toggle hinv (hc c (List.mem_cons_self c cs)))
        (fun j hj => hc j (List.mem_cons_of_mem c hj))

/-- Every toggle ends by rewriting the favorites array to storage. -/
theorem toggleFavorite_getItem (st : PageState) (i : Nat) :
    (toggleFavorite st i).store.getItem favoritesKey =
      some (jsonStringifyNatList (toggleFavorite st i).favorites) := by
  cases hA : st.dom.favActive.getD i false
  · rw [toggleFavorite_inactive hA]
    simp [setStoredFavorites, Store.getItem, Store.setItem]
  · rw [toggleFavorite_active hA]
    simp [setStoredFavorites, Store.getItem, Store.setItem]

/-- After a nonempty click sequence the stored favorites value is the
encoding of the in-memory array. -/
theorem runToggles_getItem {st : PageState} (clicks : List Nat)
    (h : clicks ≠ []) :
    (runToggles st clicks).store.getItem favoritesKey =
      some (jsonStringifyNatList (runToggles st clicks).favorites) := by
  induction clicks generalizing st with
  | nil => exact absurd rfl h
  | cons c cs ih =>
      cases cs with
      | nil => exact toggleFavorite_getItem st c
      | cons d ds => exact ih (by simp)

/-- Claim C2: starting from empty storage, after any sequence of clicks
on existing favorite buttons the favorites array holds each index at
most once, holds an index exactly when that button carries the `active`
class, and every toggle rewrites the array to storage at its end. -/
theorem C2_favorites_invariant (n m : Nat) (clicks : List Nat)
    (hc : ∀ i ∈ clicks, i < n) :
    (favState n m clicks).favorites.Nodup ∧
    (∀ i, i ∈ (favState n m clicks).favorites ↔
      (favState n m clicks).dom.favActive.getD i false = true) ∧
    (clicks ≠ [] → (favState n m clicks).store.getItem favoritesKey =
      some (jsonStringifyNatList (favState n m clicks).favorites)) ∧
    (∀ st i, (toggleFavorite st i).store.getItem favoritesKey =
      some (jsonStringifyNatList (toggleFavorite st i).favorites)) := by
  have hbase : favInv n (favoriteManagerNew (initialPage n m)) := by
    obtain ⟨hf, ha⟩ := favoriteManagerNew_initial n m
    refine ⟨?_, ?_, ?_⟩
    · rw [hf]
      exact List.nodup_nil
    · rw [ha, List.length_replicate]
    · intro i
      rw [hf, ha, getD_replicate_false]
      simp
  obtain ⟨h1, h2, h3⟩ := favInv_runToggles clicks hbase hc
  exact ⟨h1, h3, fun hne => runToggles_getItem clicks hne,
    fun st i => toggleFavorite_getItem st i⟩

/-- Witness for C2_favorites_invariant after the clicks 0, 1, 0 on a
two-button page. -/
theorem C2_favorites_invariant_witness :
    (favState 2 0 [0, 1, 0]).favorites.Nodup :=
  (C2_favorites_invariant 2 0 [0, 1, 0] (by decide)).1

/-- A slot that reads `true` is inside the list. -/
theorem getD_true_lt_length {l : List Bool} {i : Nat}
    (h : l.getD i false = true) : i < l.length := by
  by_contra hge
  rw [List.getD_eq_getElem?_getD,
    List.getElem?_eq_none (Nat.le_of_not_lt hge)] at h
  exact Bool.noConfusion h

/-- One observer entry never removes a `loaded` class. -/
theorem processEntry_loaded_mono {s : LazyState} {e : ObserverEntry} {i : Nat}
    (h : s.loaded.getD i false = true) :
    (processEntry s e).loaded.getD i false = true := by
  obtain ⟨j, b⟩ := e
  cases b
  · exact h
  · show (s.loaded.set j true).getD i false = true
    by_cases hij : i = j
    · subst hij
      exact getD_set_self_of_lt true (getD_true_lt_length h)
    · rw [getD_set_ne_of_ne true (fun hh => hij hh.symm)]
      exact h

/-- One callback invocation never removes a `loaded` class. -/
theorem processEvent_loaded_mono {s : LazyState} {ents : List ObserverEntry}
    {i : Nat} (h : s.loaded.getD i false = true) :
    (processEvent s ents).loaded.getD i false = true := by
  induction ents generalizing s with
  | nil => exact h
  | cons e es ih => exact ih (processEntry_loaded_mono h)

/-- A class that appears after one entry was there before, or the entry
was an intersecting observation of exactly that image. -/
theorem processEntry_loaded_src {s : LazyState} {e : ObserverEntry} {i : Nat}
    (h : (processEntry s e).loaded.getD i false = true) :
    s.loaded.getD i false = true ∨ e = (i, true) := by
  obtain ⟨j, b⟩ := e
  cases b
  · exact Or.inl h
  · by_cases hij : i = j
    · subst hij
      exact Or.inr rfl
    · left
      have h2 : (s.loaded.set j true).getD i false = true := h
      rwa [getD_set_ne_of_ne true (fun hh => hij hh.symm)] at h2

/-- A class that appears after one callback comes from an intersecting
entry in that callback. -/
theorem processEvent_loaded_src {s : LazyState} {ents : List ObserverEntry}
    {i : Nat} (h : (processEvent s ents).loaded.getD i false = true) :
    s.loaded.getD i false = true ∨ (i, true) ∈ ents := by
  induction ents generalizing s with
  | nil => exact Or.inl h
  | cons e es ih =>
      rcases ih h with h2 | h2
      · rcases processEntry_loaded_src h2 with h3 | h3
        · exact Or.inl h3
        · exact Or.inr (h3 ▸ List.mem_cons_self e es)
      · exact Or.inr (List.mem_cons_of_mem e h2)

/-- The observed set only ever shrinks. -/
theorem processEntry_observed_sub {s : LazyState} {e : ObserverEntry} :
    (processEntry s e).observed ⊆ s.observed := by
  obtain ⟨j, b⟩ := e
  cases b
  · exact fun a ha => ha
  · intro a ha
    exact (List.mem_filter.mp ha).1

/-- The observed set only ever shrinks across a whole callback. -/
theorem processEvent_observed_sub {s : LazyState} {ents : List ObserverEntry} :
    (processEvent s ents).observed ⊆ s.observed := by
  induction ents generalizing s with
  | nil => exact fun a ha => ha
  | cons e es ih => exact fun a ha => processEntry_observed_sub (ih ha)

/-- A loaded image stays unobserved through any one entry. -/
theorem LazyInv_processEntry {s : LazyState} {e : ObserverEntry}
    (h : LazyInv s) : LazyInv (processEntry s e) := by
  obtain ⟨j, b⟩ := e
  cases b
  · exact h
  · intro i hload
    have hload2 : (s.loaded.set j true).getD i false = true := hload
    by_cases hij : i = j
    · subst hij
      intro hmem
      have : i ∈ s.observed.filter (fun k => k ≠ i) := hmem
      have := (List.mem_filter.mp this).2
      simp at this
    · rw [getD_set_ne_of_ne true (fun hh => hij hh.symm)] at hload2
      intro hmem
      exact h i hload2 (processEntry_observed_sub hmem)

/-- A loaded image stays unobserved through any one callback. -/
theorem LazyInv_processEvent {s : LazyState} {ents : List ObserverEntry}
    (h : LazyInv s) : LazyInv (processEvent s ents) := by
  induction ents generalizing s with
  | nil => exact h
  | cons e es ih => exact ih (LazyInv_processEntry h)

/-- Initially no image is loaded, with or without an observer. -/
theorem LazyInv_lazyInit (b : Bool) (n : Nat) : LazyInv (lazyInit b n) := by
  intro i hload
  cases b <;>
    · have h2 : (List.replicate n false).getD i false = true := hload
      rw [getD_replicate_false] at h2
      exact Bool.noConfusion h2

/-- Without an `IntersectionObserver` nothing is observed, so a valid
browser never fires a nonempty callback and no image is ever loaded. -/
theorem runEvents_no_observer {n : Nat} {evs : List (List ObserverEntry)}
    (hvalid : ValidTrace (lazyInit false n) evs) :
    runEvents (lazyInit false n) evs = lazyInit false n := by
  have hgen : ∀ (s : LazyState) (evs2 : List (List ObserverEntry)),
      s.observed = [] → ValidTrace s evs2 → runEvents s evs2 = s := by
    intro s evs2
    induction evs2 generalizing s with
    | nil => intro _ _; rfl
    | cons ev rest ih =>
        intro hobs hv
        have hev : ev = [] := by
          rw [List.eq_nil_iff_forall_not_mem]
          intro e he
          have := hv.1 e he
          rw [hobs] at this
          exact List.not_mem_nil _ this
        subst hev
        exact ih s hobs hv.2
  exact hgen _ evs rfl hvalid

/-- Claim C7: images are revealed only on viewport entry and at most
once — the `loaded` class appears only when an intersecting observation
fires for that image, it is never removed, a loaded image is unobserved
and a conforming observer never reports it again, and without
`IntersectionObserver` no image is ever marked loaded. -/
theorem C7_lazy_load (n : Nat) (evs : List (List ObserverEntry))
    (ents : List ObserverEntry) (i : Nat)
    (hvalid : ValidTrace (lazyInit false n) evs) :
    (runEvents (lazyInit false n) evs).loaded = List.replicate n false ∧
    (∀ s : LazyState, s.loaded.getD i false = true →
      (processEvent s ents).loaded.getD i false = true) ∧
    (∀ s : LazyState, (processEvent s ents).loaded.getD i false = true →
      s.loaded.getD i false = true ∨ (i, true) ∈ ents) ∧
    (∀ s : LazyState, LazyInv s → LazyInv (processEvent s ents)) ∧
    LazyInv (lazyInit true n) ∧
    (∀ s : LazyState, LazyInv s → validEvent s ents →
      s.loaded.getD i false = true → ∀ b, (i, b) ∉ ents) := by
  refine ⟨?_, ?_, ?_, ?_, LazyInv_lazyInit true n, ?_⟩
  · rw [runEvents_no_observer hvalid]
    rfl
  · exact fun s h => processEvent_loaded_mono h
  · exact fun s h => processEvent_loaded_src h
  · exact fun s h => LazyInv_processEvent h
  · intro s hinv hval hload b hmem
    exact hinv i hload (hval (i, b) hmem)

/-- Witness for C7_lazy_load on a one-image page with an empty trace. -/
theorem C7_lazy_load_witness :
    (runEvents (lazyInit false 1) []).loaded = List.replicate 1 false :=
  (C7_lazy_load 1 [] [(0, true)] 0 trivial).1

/-- Theme writes leave every other storage key alone. -/
theorem applyTheme_store_frame (st : PageState) (t : String) {k : String}
    (hk : k ≠ themeKey) :
    (applyTheme st t).store.getItem k = st.store.getItem k := by
  simp [applyTheme, setStoredTheme, Store.getItem, Store.setItem, hk]

/-- Favorite writes leave every other storage key alone. -/
theorem toggleFavorite_store_frame (st : PageState) (i : Nat) {k : String}
    (hk : k ≠ favoritesKey) :
    (toggleFavorite st i).store.getItem k = st.store.getItem k := by
  cases hA : st.dom.favActive.getD i false
  · rw [toggleFavorite_inactive hA]
    simp [setStoredFavorites, Store.getItem, Store.setItem, hk]
  · rw [toggleFavorite_active hA]
    simp [setStoredFavorites, Store.getItem, Store.setItem, hk]

/-- Claim C8: `ThemeManager` operations write only the
`styleweave-theme` key and the theme attribute, `FavoriteManager`
operations write only the `styleweave-favorites` key and the button
classes, so neither component changes stored values or DOM state owned
by the other. -/
theorem C8_no_shared_state (st : PageState) (t : String) (i : Nat)
    (k : String) :
    (k ≠ themeKey →
      (applyTheme st t).store.getItem k = st.store.getItem k ∧
      (toggleTheme st).store.getItem k = st.store.getItem k ∧
      (themeManagerNew st).store.getItem k = st.store.getItem k) ∧
    ((applyTheme st t).dom.favActive = st.dom.favActive ∧
      (applyTheme st t).dom.imgLoaded = st.dom.imgLoaded ∧
      (applyTheme st t).favorites = st.favorites ∧
      (toggleTheme st).dom.favActive = st.dom.favActive ∧
      (themeManagerNew st).dom.favActive = st.dom.favActive) ∧
    (k ≠ favoritesKey →
      (toggleFavorite st i).store.getItem k = st.store.getItem k ∧
      (favoriteManagerNew st).store.getItem k = st.store.getItem k) ∧
    ((toggleFavorite st i).dom.dataTheme = st.dom.dataTheme ∧
      (toggleFavorite st i).dom.imgLoaded = st.dom.imgLoaded ∧
      (toggleFavorite st i).currentTheme = st.currentTheme ∧
      (favoriteManagerNew st).dom.dataTheme = st.dom.dataTheme ∧
      (favoriteManagerNew st).currentTheme = st.currentTheme) := by
  refine ⟨?_, ⟨rfl, rfl, rfl, rfl, rfl⟩, ?_, ?_⟩
  · intro hk
    exact ⟨applyTheme_store_frame st t hk, applyTheme_store_frame st _ hk,
      applyTheme_store_frame st _ hk⟩
  · intro hk
    exact ⟨toggleFavorite_store_frame st i hk, rfl⟩
  · cases hA : st.dom.favActive.getD i false
    · rw [toggleFavorite_inactive hA]
      exact ⟨rfl, rfl, rfl, rfl, rfl⟩
    · rw [toggleFavorite_active hA]
      exact ⟨rfl, rfl, rfl, rfl, rfl⟩

/-- Witness for C8_no_shared_state at a third-party key. -/
theorem C8_no_shared_state_witness :
    (applyTheme (initialPage 1 1) "dark").store.getItem "other-key" =
      (initialPage 1 1).store.getItem "other-key" ∧
    (toggleTheme (initialPage 1 1)).store.getItem "other-key" =
      (initialPage 1 1).store.getItem "other-key" ∧
    (themeManagerNew (initialPage 1 1)).store.getItem "other-key" =
      (initialPage 1 1).store.getItem "other-key" :=
  (C8_no_shared_state (initialPage 1 1) "dark" 0 "other-key").1 (by decide)

/-- The empty storage satisfies the two-value shape. -/
theorem StoreShape_empty : StoreShape Store.empty :=
  ⟨fun _ _ _ => rfl, Or.inl rfl⟩

/-- Every operation preserves the two-value shape of storage. -/
theorem StoreShape_applyOp {st : PageState} (op : Op)
    (h : StoreShape st.store) : StoreShape (applyOp st op).store := by
  have hne : favoritesKey ≠ themeKey := by decide
  cases op with
  | themeInit =>
      refine ⟨?_, ?_⟩
      · intro k h1 h2
        have hfr : (themeManagerNew st).store.getItem k =
            st.store.getItem k := applyTheme_store_frame st _ h1
        rw [show (applyOp st Op.themeInit).store =
          (themeManagerNew st).store from rfl, hfr]
        exact h.1 k h1 h2
      · rcases h.2 with h2 | ⟨l, h2⟩
        · exact Or.inl ((applyTheme_store_frame st _ hne).trans h2)
        · exact Or.inr ⟨l, (applyTheme_store_frame st _ hne).trans h2⟩
  | themeClick =>
      refine ⟨?_, ?_⟩
      · intro k h1 h2
        have hfr : (toggleTheme st).store.getItem k =
            st.store.getItem k := applyTheme_store_frame st _ h1
        rw [show (applyOp st Op.themeClick).store =
          (toggleTheme st).store from rfl, hfr]
        exact h.1 k h1 h2
      · rcases h.2 with h2 | ⟨l, h2⟩
        · exact Or.inl ((applyTheme_store_frame st _ hne).trans h2)
        · exact Or.inr ⟨l, (applyTheme_store_frame st _ hne).trans h2⟩
  | favInit => exact h
  | favClick i =>
      refine ⟨?_, ?_⟩
      · intro k h1 h2
        rw [show (applyOp st (Op.favClick i)).store =
          (toggleFavorite st i).store from rfl]
        rw [toggleFavorite_store_frame st i h2]
        exact h.1 k h1 h2
      · exact Or.inr ⟨(toggleFavorite st i).favorites,
          toggleFavorite_getItem st i⟩

/-- Claim C9, as stated, fails: at page load `ThemeManager.init` calls
`applyTheme`, which writes the theme to storage with no click event
having occurred — before construction nothing is stored under
`styleweave-theme`, after it `'light'` is. -/
theorem C9_counterexample :
    (initialPage 0 0).store.getItem themeKey = none ∧
    getStoredTheme (themeManagerNew (initialPage 0 0)) = some "light" ∧
    some "light" ≠ (none : Option String) := by
  refine ⟨rfl, rfl, ?_⟩
  decide

/-- C9 (amended): the persisted state consists of exactly the two flat
values — the theme string under `styleweave-theme` and a JSON-encoded
array of integer indices under `styleweave-favorites` — and every write
happens synchronously inside the operation performing it: a click
handler or component initialization at page load (which already writes
the theme).  Both shapes are preserved by every operation. -/
theorem C9_two_values (n m : Nat) (ops : List Op) (st : PageState) (op : Op)
    (h : StoreShape st.store) :
    StoreShape (runOps (initialPage n m) ops).store ∧
    StoreShape (applyOp st op).store ∧
    (∀ k, k ≠ themeKey → k ≠ favoritesKey →
      (applyOp st op).store.getItem k = st.store.getItem k) := by
  refine ⟨?_, StoreShape_applyOp op h, ?_⟩
  · have hgen : ∀ (ops2 : List Op) (st2 : PageState),
        StoreShape st2.store → StoreShape (runOps st2 ops2).store := by
      intro ops2
      induction ops2 with
      | nil => exact fun st2 h2 => h2
      | cons o os ih => exact fun st2 h2 => ih _ (StoreShape_applyOp o h2)
    exact hgen ops (initialPage n m) StoreShape_empty
  · intro k h1 h2
    cases op with
    | themeInit => exact applyTheme_store_frame st _ h1
    | themeClick => exact applyTheme_store_frame st _ h1
    | favInit => rfl
    | favClick i => exact toggleFavorite_store_frame st i h2

/-- Witness for C9_two_values on a short concrete operation sequence. -/
theorem C9_two_values_witness :
    StoreShape (runOps (initialPage 1 1)
      [Op.themeInit, Op.favInit, Op.favClick 0, Op.themeClick]).store :=
  (C9_two_values 1 1 [Op.themeInit, Op.favInit, Op.favClick 0, Op.themeClick]
    (initialPage 1 1) Op.themeInit StoreShape_empty).1

end StyleWeave
